import Mathlib

/-
Verification of the DataModel value-coercion core (src/datamodel/converters.pyx).

The source file contains two revisions of the converter module: an older
variant (lines 1-284) and a newer variant (lines 285-789).  The newer
variant is the current state of the code and is the one embedded here;
where a claim depends on both variants (the identifier converter), both
are embedded.  Python values are modelled by the inductive type `Value`,
Python exceptions by `PyErr` (exception messages are elided: no claim
depends on message text).  External libraries (the standard library
parsers, ciso8601, pendulum, orjson) are modelled by executable Lean
functions on the relevant input subset, each documented at its
definition.
-/

set_option autoImplicit false

namespace DataModel

/-- Calendar date, modelling `datetime.date`. -/
structure DateR where
  year : Nat
  month : Nat
  day : Nat
  deriving DecidableEq, Repr

/-- Time of day, modelling `datetime.time`. -/
structure TimeR where
  hour : Nat
  minute : Nat
  second : Nat
  usecond : Nat
  deriving DecidableEq, Repr

/-- Model of the Python values flowing through the converters.  A
`producer` models a zero-argument callable: `producer (some v)` is a
callable whose invocation returns `v`, `producer none` one whose
invocation raises.  `missing` models the `dataclasses._MISSING_TYPE`
sentinel instance.  Byte sequences are modelled as ASCII strings, so
`bytes.decode("ascii")` is total. -/
inductive Value where
  | none
  | bool (b : Bool)
  | int (n : Int)
  | float (q : Rat)
  | decimal (q : Rat)
  | str (s : String)
  | bytes (s : String)
  | uuid (n : Nat)
  | date (d : DateR)
  | datetime (d : DateR) (t : TimeR)
  | time (t : TimeR)
  | timedelta (us : Int)
  | list (xs : List Value)
  | tuple (xs : List Value)
  | dict (xs : List (String × Value))
  | producer (r : Option Value)
  | missing

/-- Model of the Python exceptions raised by the converters.  Messages
are elided.  `invalidOperation` models `decimal.InvalidOperation`,
which derives from `ArithmeticError` and is NOT a subclass of
`ValueError` or `TypeError`. -/
inductive PyErr where
  | valueError
  | typeError
  | attributeError
  | invalidOperation
  deriving DecidableEq, Repr

/-- Result of a converter call: a value or a raised exception. -/
abbrev PyRes := Except PyErr Value

/-- `isinstance(obj, bool)` style discriminators used in hypotheses. -/
def Value.isCallable : Value → Bool
  | .producer _ => true
  | _ => false

/-- `isinstance(obj, int)`: Python `bool` is a subclass of `int`. -/
def Value.isInstInt : Value → Bool
  | .int _ => true
  | .bool _ => true
  | _ => false

def Value.isNone : Value → Bool
  | .none => true
  | _ => false

def Value.isUuid : Value → Bool
  | .uuid _ => true
  | _ => false

/-- `isinstance(obj, (list, tuple))`. -/
def Value.isSeq : Value → Bool
  | .list _ => true
  | .tuple _ => true
  | _ => false

def Value.isDict : Value → Bool
  | .dict _ => true
  | _ => false

/-! ### Character and string helpers (ASCII models of `str` methods) -/

/-- ASCII lower-casing of a character, modelling `str.lower` on the
ASCII subset the converters use. -/
def charLower (c : Char) : Char :=
  if 'A' ≤ c ∧ c ≤ 'Z' then Char.ofNat (c.toNat + 32) else c

/-- Model of Python `str.lower` (ASCII subset). -/
def pyLower (s : String) : String :=
  ⟨s.data.map charLower⟩

/-! ### Boolean converter (newer variant, source lines 532-569) -/

/-- Embedding of the module-local `strtobool` (source lines 532-547):
lower-case the text, map the truthy vocabulary to `True`, the falsy
vocabulary to `False`, raise `ValueError` otherwise. -/
def strtobool (val : String) : Except PyErr Bool :=
  let v := pyLower val
  if v = "y" ∨ v = "yes" ∨ v = "t" ∨ v = "true" ∨ v = "on" ∨ v = "1" then
    .ok true
  else if v = "n" ∨ v = "no" ∨ v = "f" ∨ v = "false" ∨ v = "off" ∨ v = "0" then
    .ok false
  else
    .error .valueError

/-- Generic Python truthiness `bool(obj)` for the values that reach the
final branch of `to_boolean` (not `None`/`bool`/`str`/`bytes`/callable).
Containers are truthy when non-empty; `timedelta(0)` is falsy; dates,
times, datetimes, uuids and the missing sentinel are truthy objects. -/
def pyTruthy : Value → Bool
  | .int n => n ≠ 0
  | .float q => q ≠ 0
  | .decimal q => q ≠ 0
  | .list xs => ¬ xs.isEmpty
  | .tuple xs => ¬ xs.isEmpty
  | .dict xs => ¬ xs.isEmpty
  | .timedelta us => us ≠ 0
  | _ => true

/-- Embedding of `to_boolean` (newer variant, source lines 549-569):
`None` maps to `False`; `bool` passes through; bytes are decoded and,
like text, go through `strtobool`; a callable is invoked (a failing
call falls off the end of the function, returning `None`); anything
else is converted by generic truthiness. -/
def to_boolean : Value → PyRes
  | .none => .ok (.bool false)
  | .bool b => .ok (.bool b)
  | .bytes s => (strtobool s).map Value.bool
  | .str s => (strtobool s).map Value.bool
  | .producer r =>
    match r with
    | some v => .ok v
    | none => .ok .none
  | v => .ok (.bool (pyTruthy v))

example : to_boolean (.str "YES") = .ok (.bool true) := rfl
example : to_boolean (.str "0") = .ok (.bool false) := rfl
example : to_boolean (.str "maybe") = .error .valueError := rfl

/-! ### Models of numeric and identifier parsing from the standard library -/

def isDigitC (c : Char) : Bool := '0' ≤ c ∧ c ≤ '9'

/-- Numeric value of a digit string (most significant first). -/
def digitsVal (cs : List Char) : Nat :=
  cs.foldl (fun a c => a * 10 + (c.toNat - 48)) 0

/-- Strip leading and trailing spaces, as Python numeric constructors
accept surrounding whitespace. -/
def stripSpaces (cs : List Char) : List Char :=
  ((cs.dropWhile (fun c => c = ' ')).reverse.dropWhile (fun c => c = ' ')).reverse

/-- Model of `int(s)` for text: optional sign followed by a non-empty
run of decimal digits (surrounding whitespace allowed; underscores and
other bases are outside the modelled subset). -/
def pyIntStr (s : String) : Option Int :=
  let cs := stripSpaces s.data
  let core : List Char → Option Nat := fun ds =>
    if ds ≠ [] ∧ ds.all isDigitC then some (digitsVal ds) else Option.none
  match cs with
  | '-' :: rest => (core rest).map (fun n => -(n : Int))
  | '+' :: rest => (core rest).map (fun n => (n : Int))
  | _ => (core cs).map (fun n => (n : Int))

/-- Truncation toward zero, modelling `int()` applied to a numeric. -/
def ratTrunc (q : Rat) : Int :=
  Int.tdiv q.num (q.den : Int)

/-- Model of `int(obj)` on a non-`int` object: parses text and byte
text, truncates numerics, raises `TypeError` for values with no
`__int__`/`__index__` (and `ValueError` for unparsable text). -/
def pyIntOf : Value → Except PyErr Int
  | .int n => .ok n
  | .bool b => .ok (if b then 1 else 0)
  | .float q => .ok (ratTrunc q)
  | .decimal q => .ok (ratTrunc q)
  | .str s =>
    match pyIntStr s with
    | some n => .ok n
    | Option.none => .error .valueError
  | .bytes s =>
    match pyIntStr s with
    | some n => .ok n
    | Option.none => .error .valueError
  | _ => .error .typeError

/-- Model of `float(s)` for text: optional sign, decimal digits with an
optional fractional part (exponents and the named constants are outside
the modelled subset). -/
def parseFloatChars : List Char → Option Rat
  | cs =>
    let signed : Bool × List Char :=
      match cs with
      | '-' :: r => (true, r)
      | '+' :: r => (false, r)
      | _ => (false, cs)
    let neg := signed.1
    let body := signed.2
    let ip := body.takeWhile isDigitC
    let rest := body.dropWhile isDigitC
    let mk : Nat → Nat → Nat → Option Rat := fun i f k =>
      let q : Rat := (i : Rat) + (f : Rat) / ((10 ^ k : Nat) : Rat)
      some (if neg then -q else q)
    match rest with
    | [] => if ip ≠ [] then mk (digitsVal ip) 0 0 else Option.none
    | '.' :: fp =>
      if fp.all isDigitC ∧ (ip ≠ [] ∨ fp ≠ []) then
        mk (digitsVal ip) (digitsVal fp) fp.length
      else Option.none
    | _ => Option.none

def pyFloatStr (s : String) : Option Rat :=
  parseFloatChars (stripSpaces s.data)

/-- Model of `float(obj)` on a non-`float` object: numerics convert,
text and byte text parse, other objects raise `TypeError`. -/
def pyFloatOf : Value → Except PyErr Rat
  | .int n => .ok (n : Rat)
  | .bool b => .ok (if b then 1 else 0)
  | .float q => .ok q
  | .decimal q => .ok q
  | .str s =>
    match pyFloatStr s with
    | some q => .ok q
    | Option.none => .error .valueError
  | .bytes s =>
    match pyFloatStr s with
    | some q => .ok q
    | Option.none => .error .valueError
  | _ => .error .typeError

/-- Model of `Decimal(obj)`.  Unparsable TEXT raises
`decimal.InvalidOperation` (a `DecimalException`, which derives from
`ArithmeticError`, not from `ValueError`); byte sequences and
unsupported objects raise `TypeError`; a malformed tuple argument
raises `ValueError`.  The numeric-text grammar is modelled by the same
sign-digits-fraction subset as `float`. -/
def pyDecimalOf : Value → Except PyErr Rat
  | .int n => .ok (n : Rat)
  | .bool b => .ok (if b then 1 else 0)
  | .float q => .ok q
  | .decimal q => .ok q
  | .str s =>
    match pyFloatStr s with
    | some q => .ok q
    | Option.none => .error .invalidOperation
  | .tuple _ => .error .valueError
  | _ => .error .typeError

/-- Model of `str(obj)`, used only where the converters feed an object
to `UUID(str(obj))`: all that matters downstream is the exact text for
`str` inputs and that the other renderings parse as a UUID exactly when
the textual form is 32 hexadecimal digits (true for `int`, whose
rendering is its decimal digit string). -/
def pyStr : Value → String
  | .none => "None"
  | .bool true => "True"
  | .bool false => "False"
  | .int n => toString n
  | .float q => toString q
  | .decimal q => toString q
  | .str s => s
  | .bytes s => "b:" ++ s
  | .uuid n => "uuid:" ++ toString n
  | .date _ => "date"
  | .datetime _ _ => "datetime"
  | .time _ => "time"
  | .timedelta _ => "timedelta"
  | .list _ => "[list]"
  | .tuple _ => "(tuple)"
  | .dict _ => "[dict]"
  | .producer _ => "<callable>"
  | .missing => "<missing>"

def isHexC (c : Char) : Bool :=
  isDigitC c ∨ ('a' ≤ c ∧ c ≤ 'f') ∨ ('A' ≤ c ∧ c ≤ 'F')

def hexVal (c : Char) : Nat :=
  if isDigitC c then c.toNat - 48
  else if 'a' ≤ c ∧ c ≤ 'f' then c.toNat - 87
  else c.toNat - 55

/-- Model of the `uuid.UUID(hex)` constructor: hyphens are removed and
the remainder must be exactly 32 hexadecimal digits, otherwise
`ValueError` is raised (the urn/braces forms are outside the modelled
subset).  Returned as the 128-bit integer value. -/
def parseUUIDstr (s : String) : Option Nat :=
  let cs := s.data.filter (fun c => c ≠ '-')
  if cs.length = 32 ∧ cs.all isHexC then
    some (cs.foldl (fun a c => a * 16 + hexVal c) 0)
  else Option.none

/-! ### Identifier, integer, float and decimal converters -/

/-- Shared tail of both `to_uuid` variants: `UUID(str(obj))` returning
`None` when the constructor raises `ValueError`. -/
def uuidFallback (v : Value) : Value :=
  match parseUUIDstr (pyStr v) with
  | some n => .uuid n
  | Option.none => .none

/-- Embedding of `to_uuid` (older variant, source lines 18-27):
pass through a `UUID`, else `UUID(str(obj))`, returning `None` on
`ValueError`. -/
def to_uuid_v1 : Value → PyRes
  | .uuid n => .ok (.uuid n)
  | v => .ok (uuidFallback v)

/-- Embedding of `to_uuid` (newer variant, source lines 304-319):
pass through a `UUID`; a callable is invoked and its value returned
as-is when the call succeeds (a failing call falls through, under a
bare `except`, to the shared tail); else `UUID(str(obj))`, returning
`None` on `ValueError`. -/
def to_uuid_v2 : Value → PyRes
  | .uuid n => .ok (.uuid n)
  | .producer r =>
    match r with
    | some w => .ok w
    | Option.none => .ok (uuidFallback (.producer Option.none))
  | v => .ok (uuidFallback v)

/-- Embedding of `to_integer` (newer variant, source lines 389-410):
`None` passes through; `isinstance(obj, int)` (which includes `bool`)
passes through; a callable is invoked (a failing call falls off the end
of the function, returning `None`); else `int(obj)`, re-raised as
`ValueError` on `TypeError` or `ValueError`. -/
def to_integer : Value → PyRes
  | .none => .ok .none
  | .int n => .ok (.int n)
  | .bool b => .ok (.bool b)
  | .producer r =>
    match r with
    | some v => .ok v
    | Option.none => .ok .none
  | v =>
    match pyIntOf v with
    | .ok n => .ok (.int n)
    | .error _ => .error .valueError

/-- Embedding of `to_float` (newer variant, source lines 412-431):
`float` and `Decimal` pass through; the missing sentinel maps to
`None`; a callable is invoked (a failing call falls off the end,
returning `None`); else `float(obj)`, returning `None` when that raises
`TypeError` or `ValueError`. -/
def to_float : Value → PyRes
  | .float q => .ok (.float q)
  | .decimal q => .ok (.decimal q)
  | .missing => .ok .none
  | .producer r =>
    match r with
    | some v => .ok v
    | Option.none => .ok .none
  | v =>
    match pyFloatOf v with
    | .ok q => .ok (.float q)
    | .error _ => .ok .none

/-- Embedding of `to_decimal` (newer variant, source lines 433-452):
`None` and `Decimal` pass through; a callable is invoked (a failing
call falls off the end, returning `None`); else `Decimal(obj)` with
only `TypeError` and `ValueError` turned into `None` — the
`decimal.InvalidOperation` raised for unparsable text is NOT caught and
propagates. -/
def to_decimal : Value → PyRes
  | .none => .ok .none
  | .decimal q => .ok (.decimal q)
  | .producer r =>
    match r with
    | some v => .ok v
    | Option.none => .ok .none
  | v =>
    match pyDecimalOf v with
    | .ok q => .ok (.decimal q)
    | .error .typeError => .ok .none
    | .error .valueError => .ok .none
    | .error e => .error e

example : to_integer (.str "42") = .ok (.int 42) := rfl
example : to_integer (.str "abc") = .error .valueError := rfl
example : to_integer .none = .ok .none := rfl
example : to_float (.str "3.5") = .ok (.float (7 / 2 : Rat)) := by
  show Except.ok (Value.float ((3 : Rat) + (5 : Rat) / ((10 : Nat) : Rat))) = _
  norm_num
example : to_decimal (.str "abc") = .error .invalidOperation := rfl
example : to_uuid_v2 (.str "12345678-1234-5678-1234-567812345678") =
    .ok (.uuid 0x12345678123456781234567812345678) := rfl

/-! ### Models of the external date parsers and the date converters -/

/-- Read exactly `n` decimal digits from the front. -/
def parseNDigits (n : Nat) (cs : List Char) : Option (Nat × List Char) :=
  let ds := cs.take n
  if ds.length = n ∧ ds.all isDigitC then some (digitsVal ds, cs.drop n)
  else Option.none

/-- Shared ISO-8601 core used by the three external parser models:
`YYYY-MM-DD`, optionally followed by `T` or a space and `HH:MM:SS`.
Month, day, hour, minute and second ranges are validated (day bound
simplified to 31). -/
def isoCore (cs : List Char) : Option (DateR × TimeR) :=
  match parseNDigits 4 cs with
  | Option.none => Option.none
  | some (y, cs1) =>
  match cs1 with
  | '-' :: cs2 =>
    match parseNDigits 2 cs2 with
    | Option.none => Option.none
    | some (mo, cs3) =>
    match cs3 with
    | '-' :: cs4 =>
      match parseNDigits 2 cs4 with
      | Option.none => Option.none
      | some (d, cs5) =>
        if 1 ≤ mo ∧ mo ≤ 12 ∧ 1 ≤ d ∧ d ≤ 31 then
          match cs5 with
          | [] => some (⟨y, mo, d⟩, ⟨0, 0, 0, 0⟩)
          | sep :: cs6 =>
            if sep = 'T' ∨ sep = ' ' then
              match parseNDigits 2 cs6 with
              | Option.none => Option.none
              | some (h, cs7) =>
              match cs7 with
              | ':' :: cs8 =>
                match parseNDigits 2 cs8 with
                | Option.none => Option.none
                | some (mi, cs9) =>
                match cs9 with
                | ':' :: cs10 =>
                  match parseNDigits 2 cs10 with
                  | some (sec, []) =>
                    if h < 24 ∧ mi < 60 ∧ sec < 60 then
                      some (⟨y, mo, d⟩, ⟨h, mi, sec, 0⟩)
                    else Option.none
                  | _ => Option.none
                | _ => Option.none
              | _ => Option.none
            else Option.none
        else Option.none
    | _ => Option.none
  | _ => Option.none

/-- Model of the external `ciso8601.parse_datetime` (the fast
fixed-format parse), on the ISO subset shared by the three parsers. -/
def cisoParse (s : String) : Option (DateR × TimeR) :=
  isoCore s.data

/-- Model of the standard library `datetime.fromisoformat` (the
ISO-8601 parse), on the same subset. -/
def fromisoParse (s : String) : Option (DateR × TimeR) :=
  isoCore s.data

/-- Model of the external `pendulum.parse(obj, strict=False)` (the
flexible natural-language fallback); only its ISO subset is modelled,
which is sound for every theorem below because they only require that
the fallback is consulted after the first two parsers and that the
converter raises when it too fails. -/
def pendulumParse (s : String) : Option (DateR × TimeR) :=
  isoCore s.data

/-- Tail of `to_date` after the `ciso8601` attempt and byte decoding:
`datetime.fromisoformat(obj).date()`, then
`pendulum.parse(obj, strict=False).date()`, then `ValueError`. -/
def dateTail (s : String) : PyRes :=
  match fromisoParse s with
  | some (d, _) => .ok (.date d)
  | Option.none =>
    match pendulumParse s with
    | some (d, _) => .ok (.date d)
    | Option.none => .error .valueError

/-- Embedding of `to_date` (newer variant, source lines 333-358):
`None` passes through; `isinstance(obj, datetime.date)` passes through
(this includes `datetime` values, as `datetime` subclasses `date`);
text goes through `ciso8601` first; byte sequences are decoded to text
(skipping the `ciso8601` stage, which is guarded by
`isinstance(obj, str)`); then `fromisoformat`, then `pendulum`, and
`ValueError` when every parse fails.  A non-text object reaches
`fromisoformat`, whose `TypeError` is not caught. -/
def to_date : Value → PyRes
  | .none => .ok .none
  | .date d => .ok (.date d)
  | .datetime d t => .ok (.datetime d t)
  | .str s =>
    match cisoParse s with
    | some (d, _) => .ok (.date d)
    | Option.none => dateTail s
  | .bytes s => dateTail s
  | _ => .error .typeError

/-- Tail of `to_datetime`, as `dateTail` but keeping the full value. -/
def datetimeTail (s : String) : PyRes :=
  match fromisoParse s with
  | some (d, t) => .ok (.datetime d t)
  | Option.none =>
    match pendulumParse s with
    | some (d, t) => .ok (.datetime d t)
    | Option.none => .error .valueError

/-- Embedding of `to_datetime` (newer variant, source lines 360-387).
The `obj == _MISSING_TYPE` test compares an instance against the class
itself and is never true for the modelled values, so it is dropped.  A
`date` value is NOT an instance of `datetime` and falls through to
`fromisoformat`, whose `TypeError` is not caught. -/
def to_datetime : Value → PyRes
  | .none => .ok .none
  | .datetime d t => .ok (.datetime d t)
  | .str s =>
    match cisoParse s with
    | some (d, t) => .ok (.datetime d t)
    | Option.none => datetimeTail s
  | .bytes s => datetimeTail s
  | _ => .error .typeError

example : to_date (.str "2024-01-05") = .ok (.date ⟨2024, 1, 5⟩) := rfl
example : to_date (.bytes "2024-01-05") = .ok (.date ⟨2024, 1, 5⟩) := rfl
example : to_date (.str "garbage") = .error .valueError := rfl

/-! ### Duration and time-of-day converters (regex models) -/

/-- Backtracking-faithful match of `\d{1,n}:` — the greedy digit
quantifier followed by a literal colon: it succeeds exactly when the
maximal leading digit run has length 1..n and is followed by `:`. -/
def takeDigitsColon (maxN : Nat) (cs : List Char) : Option (Nat × List Char) :=
  let ds := cs.takeWhile isDigitC
  let rest := cs.dropWhile isDigitC
  if 1 ≤ ds.length ∧ ds.length ≤ maxN then
    match rest with
    | ':' :: r => some (digitsVal ds, r)
    | _ => Option.none
  else Option.none

/-- Match of the trailing `\d{1,2}(?:.(\d{1,6}))?` of the two clock
patterns: the seconds quantifier greedily takes two digits when it can,
and the optional fraction group (whose `.` is an unescaped any-char)
is taken only when one more character followed by at least one digit
remains — the regex engine never backtracks into the seconds group
because dropping the optional group already yields a match. -/
def takeSecondsFrac (cs : List Char) : Option (Nat × Option (List Char)) :=
  let ds := cs.takeWhile isDigitC
  let rest := cs.dropWhile isDigitC
  if ds.length = 0 then Option.none
  else
    let k := min 2 ds.length
    let remainder := ds.drop k ++ rest
    match remainder with
    | [] => some (digitsVal (ds.take k), Option.none)
    | _ :: r =>
      let fd := r.takeWhile isDigitC
      if fd.length = 0 then some (digitsVal (ds.take k), Option.none)
      else some (digitsVal (ds.take k), some (fd.take 6))

/-- Embedding of `_convert_second_fraction` (source lines 456-461):
right-pad the captured fraction with zeros to six digits and truncate
to six digits.  The captured group has 1..6 digits, so this is a
power-of-ten scaling. -/
def fracVal : Option (List Char) → Nat
  | Option.none => 0
  | some f => digitsVal f * 10 ^ (6 - f.length)

/-- Model of `TIMEDELTA_RE.match` (source line 454), the anchored
prefix match of `(-)?(\d{1,3}):(\d{1,2}):(\d{1,2})(?:.(\d{1,6}))?`,
returning sign, hours, minutes, seconds and the fraction scaled to
microseconds. -/
def tdMatchChars (cs : List Char) : Option (Bool × Nat × Nat × Nat × Nat) :=
  let signed : Bool × List Char :=
    match cs with
    | '-' :: r => (true, r)
    | _ => (false, cs)
  match takeDigitsColon 3 signed.2 with
  | Option.none => Option.none
  | some (h, cs2) =>
  match takeDigitsColon 2 cs2 with
  | Option.none => Option.none
  | some (m, cs3) =>
  match takeSecondsFrac cs3 with
  | Option.none => Option.none
  | some (sec, frac) => some (signed.1, h, m, sec, fracVal frac)

/-- Body of `to_timedelta` on text.  On a match the groups are digit
strings, so the guarded `int()` calls and the `timedelta` construction
cannot raise and the `except ValueError` re-raise branch is dead; on no
match the raw text is returned unchanged. -/
def tdCore (s : String) : PyRes :=
  match tdMatchChars s.data with
  | Option.none => .ok (.str s)
  | some (neg, h, m, sec, us) =>
    let total : Int := ((h * 3600 + m * 60 + sec) * 1000000 + us : Nat)
    .ok (.timedelta (if neg then -total else total))

/-- Embedding of `to_timedelta` (newer variant, source lines 463-489):
byte sequences are decoded to text (so a passthrough returns the
DECODED text); `TIMEDELTA_RE.match` applied to a non-text object raises
`TypeError` inside `re`, which is not caught. -/
def to_timedelta : Value → PyRes
  | .str s => tdCore s
  | .bytes s => tdCore s
  | _ => .error .typeError

example : to_timedelta (.str "abc") = .ok (.str "abc") := rfl
example : to_timedelta (.str "-01:02:03.250000") =
    .ok (.timedelta (-3723250000)) := rfl
example : to_timedelta (.str "0:0:1") = .ok (.timedelta 1000000) := rfl

/-- Model of `TIME_RE.match` (source line 491), the anchored prefix
match of `(\d{1,2}):(\d{1,2}):(\d{1,2})(?:.(\d{1,6}))?`. -/
def timeMatchChars (cs : List Char) : Option (Nat × Nat × Nat × Nat) :=
  match takeDigitsColon 2 cs with
  | Option.none => Option.none
  | some (h, cs2) =>
  match takeDigitsColon 2 cs2 with
  | Option.none => Option.none
  | some (m, cs3) =>
  match takeSecondsFrac cs3 with
  | Option.none => Option.none
  | some (sec, frac) => some (h, m, sec, fracVal frac)

/-- Model of the `datetime.time` constructor range checks: raises
`ValueError` (here: `Option.none`) outside the valid ranges. -/
def mkTimeN (h m sec us : Nat) : Option TimeR :=
  if h < 24 ∧ m < 60 ∧ sec < 60 ∧ us < 1000000 then some ⟨h, m, sec, us⟩
  else Option.none

/-- Split a character list on `:` (model of `str.split(":")`). -/
def splitOnColon : List Char → List (List Char)
  | [] => [[]]
  | ':' :: r => [] :: splitOnColon r
  | c :: r =>
    match splitOnColon r with
    | [] => [[c]]
    | p :: ps => (c :: p) :: ps

/-- Model of `datetime.time(*map(int, obj.split(":")))`: every
colon-separated part must parse as an integer, at most four arguments
are accepted, and the constructor range checks must pass; any
`ValueError`/`TypeError` along the way yields `Option.none` (the caller
catches both and falls through to the regex path). -/
def timeFromSplit (s : String) : Option TimeR :=
  let parts := (splitOnColon s.data).map (fun p => pyIntStr (⟨p⟩ : String))
  if parts.all Option.isSome then
    match parts.map (fun o => o.getD 0) with
    | [h] => if 0 ≤ h then mkTimeN h.toNat 0 0 0 else Option.none
    | [h, m] =>
      if 0 ≤ h ∧ 0 ≤ m then mkTimeN h.toNat m.toNat 0 0 else Option.none
    | [h, m, sec] =>
      if 0 ≤ h ∧ 0 ≤ m ∧ 0 ≤ sec then mkTimeN h.toNat m.toNat sec.toNat 0
      else Option.none
    | [h, m, sec, us] =>
      if 0 ≤ h ∧ 0 ≤ m ∧ 0 ≤ sec ∧ 0 ≤ us then
        mkTimeN h.toNat m.toNat sec.toNat us.toNat
      else Option.none
    | _ => Option.none
  else Option.none

/-- Embedding of `to_time` (newer variant, source lines 493-529):
`None` and `time` pass through; a callable is invoked (a failing call
falls off the end, returning `None`); text first tries the
colon-split constructor call, then the regex (returning the raw text
unchanged on no match, raising `ValueError` when the constructor
rejects matched groups).  Byte sequences reach `bytes.split(":")` with
a text separator (`TypeError`, caught) and then `TIME_RE.match` with a
text pattern (`TypeError`, not caught); other objects raise
`AttributeError` at `obj.split`, which is not caught. -/
def to_time : Value → PyRes
  | .none => .ok .none
  | .time t => .ok (.time t)
  | .producer r =>
    match r with
    | some v => .ok v
    | Option.none => .ok .none
  | .str s =>
    match timeFromSplit s with
    | some t => .ok (.time t)
    | Option.none =>
      match timeMatchChars s.data with
      | Option.none => .ok (.str s)
      | some (h, m, sec, us) =>
        match mkTimeN h m sec us with
        | some t => .ok (.time t)
        | Option.none => .error .valueError
  | .bytes _ => .error .typeError
  | _ => .error .attributeError

example : to_time (.str "1:2:3") = .ok (.time ⟨1, 2, 3, 0⟩) := rfl
example : to_time (.str "abc") = .ok (.str "abc") := rfl

/-! ### Object converter and the encoder registry -/

/-- Model of the external JSON decoder (`orjson.loads`), restricted to
the scalar documents the claims exercise: `null`, booleans, integers
and strings without inner quotes; any other text is malformed here.
Container documents never reach the decoder in the theorems below
because `to_object` passes `list`/`dict`/`tuple` values through before
decoding. -/
def jsonLoads (s : String) : Option Value :=
  let cs := s.data
  if cs = "null".data then some .none
  else if cs = "true".data then some (.bool true)
  else if cs = "false".data then some (.bool false)
  else
    match cs with
    | '"' :: rest =>
      if rest.length ≥ 1 ∧ rest.getLast? = some '"' ∧
          rest.dropLast.all (fun c => c ≠ '"') then
        some (.str ⟨rest.dropLast⟩)
      else Option.none
    | '-' :: ds =>
      if ds ≠ [] ∧ ds.all isDigitC then some (.int (-(digitsVal ds : Int)))
      else Option.none
    | ds =>
      if ds ≠ [] ∧ ds.all isDigitC then some (.int (digitsVal ds))
      else Option.none

/-- Embedding of `to_object` (newer variant, source lines 571-590):
`None`, `list`, `dict` and `tuple` pass through; a callable is invoked
(a failing call falls off the end, returning `None`); text is decoded
as JSON, returning `None` on a decode error
(`orjson.JSONDecodeError` subclasses `ValueError`); anything else
raises `ValueError`. -/
def to_object : Value → PyRes
  | .none => .ok .none
  | .list xs => .ok (.list xs)
  | .dict xs => .ok (.dict xs)
  | .tuple xs => .ok (.tuple xs)
  | .producer r =>
    match r with
    | some v => .ok v
    | Option.none => .ok .none
  | .str s =>
    match jsonLoads s with
    | some v => .ok v
    | Option.none => .ok .none
  | _ => .error .valueError

/-- The primitive kinds registered in the `encoders` dict (newer
variant, source lines 592-605); `dict`, `list` and `tuple` all map to
`to_object` and are represented by the single kind `objectK`. -/
inductive PKind where
  | uuidK | boolK | intK | floatK | dateK | datetimeK
  | timedeltaK | timeK | decimalK | objectK
  deriving DecidableEq, Repr

/-- The encoder registry: the process-wide `encoders` mapping from
primitive kind to converter (newer variant, source lines 592-605). -/
def registry : PKind → Value → PyRes
  | .uuidK => to_uuid_v2
  | .boolK => to_boolean
  | .intK => to_integer
  | .floatK => to_float
  | .dateK => to_date
  | .datetimeK => to_datetime
  | .timedeltaK => to_timedelta
  | .timeK => to_time
  | .decimalK => to_decimal
  | .objectK => to_object

/-! ### Declared-type descriptors and the coercion engine `parse_type` -/

/-- Declared field types as `parse_type` (newer variant, source lines
607-758) classifies them: the `typing`-module generics `List[a]`,
`Dict[k, v]` and `Optional[a]` (= `Union[a, None]`, whose `_name` is
`None` and whose origin is `Union` with `NoneType` among the
arguments), and the bare primitive classes.  Dataclass composites are
outside the modelled grammar, so the `is_dataclass` tests of the source
are `False` on every modelled descriptor. -/
inductive Ty where
  | tUuid | tBool | tInt | tFloat | tDate | tDatetime
  | tTimedelta | tTime | tDecimal | tStr
  | tList (a : Ty)
  | tDict (k v : Ty)
  | tOptional (a : Ty)
  deriving DecidableEq, Repr

/-- `T.__module__ == 'typing'`. -/
def Ty.isTyping : Ty → Bool
  | .tList _ => true
  | .tDict _ _ => true
  | .tOptional _ => true
  | _ => false

/-- The `encoders[T]` lookup for a bare class: each primitive class maps
to its converter; `str` is not registered (`KeyError`). -/
def encodersTy : Ty → Option (Value → PyRes)
  | .tUuid => some to_uuid_v2
  | .tBool => some to_boolean
  | .tInt => some to_integer
  | .tFloat => some to_float
  | .tDate => some to_date
  | .tDatetime => some to_datetime
  | .tTimedelta => some to_timedelta
  | .tTime => some to_time
  | .tDecimal => some to_decimal
  | _ => Option.none

/-- Modelled from the spec: the `is_iterable` helper imported from the
missing `.validation` module.  Ordered collections iterate (spec
section 4.3); Python mappings, text and byte sequences are iterable as
well. -/
def isIterable : Value → Bool
  | .list _ => true
  | .tuple _ => true
  | .dict _ => true
  | .str _ => true
  | .bytes _ => true
  | _ => false

/-- Items of an ordered collection (the `for item in data` loop). -/
def seqItems : Value → List Value
  | .list xs => xs
  | .tuple xs => xs
  | _ => []

/-- Left-to-right conversion loop over sequence items; the first raised
exception propagates. -/
def parseListM (f : Value → PyRes) : List Value → Except PyErr (List Value)
  | [] => .ok []
  | x :: xs =>
    match f x with
    | .error e => .error e
    | .ok r =>
      match parseListM f xs with
      | .error e => .error e
      | .ok rs => .ok (r :: rs)

/-- The `Dict` comprehension `{k: parse_type(args[1], v) for k, v in
data.items()}`: keys pass through untouched, values are converted,
the first raised exception propagates. -/
def parsePairsM (f : Value → PyRes) :
    List (String × Value) → Except PyErr (List (String × Value))
  | [] => .ok []
  | (k, x) :: xs =>
    match f x with
    | .error e => .error e
    | .ok r =>
      match parsePairsM f xs with
      | .error e => .error e
      | .ok rs => .ok ((k, r) :: rs)

/-- The dead-end `last conversion` of the non-typing branch (source
lines 744-757), reached only for `str` (the one modelled bare class
without a registry entry): `str(**mapping)` and `str(*seq)` with two or
more positional arguments raise `TypeError`, which is caught and
logged, returning the data unchanged; a singleton or empty sequence and
plain text convert. -/
def strLastConversion (data : Value) : Value :=
  match data with
  | .list [] => .str ""
  | .list [x] => .str (pyStr x)
  | .tuple [] => .str ""
  | .tuple [x] => .str (pyStr x)
  | .str s => .str s
  | _ => data

/-- Embedding of `parse_type` (newer variant, source lines 607-758),
restricted to the modelled descriptor grammar (no dataclasses, no
override encoder — the claims never supply one):

* `Dict[k, v]` with a mapping: convert every value, keys untouched;
  with a non-mapping the whole `typing` branch is fallen through and
  the function ends, RETURNING `None` implicitly.
* `List[a]`: a non-sequence is first wrapped as `[data]`; a nested
  `typing` element type has no dataclass first argument here, so the
  data is returned as built; otherwise (no dataclass element either)
  each item is converted in a loop when the data is iterable.
* `Optional[a]` (`Union` origin with `NoneType` in the arguments):
  `None` is returned unconditionally, anything else recurses into the
  non-`None` argument.
* A bare primitive class: its registry converter is applied, with
  `TypeError` and `ValueError` re-raised as `ValueError` and every
  other exception propagating; `str` has no registry entry
  (`KeyError`, passed) and falls to the last-conversion block. -/
def parse_type : Ty → Value → PyRes
  | .tDict _ vt, data =>
    match data with
    | .dict kvs => (parsePairsM (fun x => parse_type vt x) kvs).map Value.dict
    | _ => .ok .none
  | .tList a, data =>
    let d := if data.isSeq then data else .list [data]
    if a.isTyping then .ok d
    else if isIterable d then
      (parseListM (fun x => parse_type a x) (seqItems d)).map Value.list
    else .ok d
  | .tOptional a, data =>
    match data with
    | .none => .ok .none
    | _ => parse_type a data
  | t, data =>
    match encodersTy t with
    | some conv =>
      match conv data with
      | .ok r => .ok r
      | .error .typeError => .error .valueError
      | .error .valueError => .error .valueError
      | .error e => .error e
    | Option.none => .ok (strLastConversion data)

example : parse_type .tInt (.str "42") = .ok (.int 42) := by
  simp [parse_type, encodersTy, to_integer, pyIntOf]
  rfl

example : parse_type (.tOptional .tInt) .none = .ok .none := by
  simp [parse_type]

example : parse_type (.tOptional .tInt) (.str "42") = .ok (.int 42) := by
  simp [parse_type, encodersTy, to_integer, pyIntOf]
  rfl

example : parse_type (.tList .tInt) (.str "42") = .ok (.list [.int 42]) := by
  simp [parse_type, Value.isSeq, Ty.isTyping, isIterable, seqItems, parseListM,
    encodersTy, to_integer, pyIntOf]
  rfl

example : parse_type (.tDict .tStr .tInt) (.int 7) = .ok .none := by
  simp [parse_type]

/-! ### Claim C1 — duration converter on non-matching input -/

/-- C1 counterexample: the claim says `to_timedelta` raises on input
that does not match the duration pattern and never silently returns the
raw input; on `"abc"`, which does not match, it returns the raw text
unchanged without raising. -/
theorem C1_counterexample :
    tdMatchChars "abc".data = Option.none ∧
    to_timedelta (.str "abc") = .ok (.str "abc") :=
  ⟨rfl, rfl⟩

/-- C1 (amended): for every raw text or byte input that does not match
the duration pattern, `to_timedelta` silently returns the input
unchanged (decoded to text when it was a byte sequence) instead of
raising a conversion error. -/
theorem C1_main :
    (∀ s : String, tdMatchChars s.data = Option.none →
      to_timedelta (.str s) = .ok (.str s)) ∧
    (∀ s : String, tdMatchChars s.data = Option.none →
      to_timedelta (.bytes s) = .ok (.str s)) := by
  constructor <;> intro s h <;> simp [to_timedelta, tdCore, h]

/-- C1 witness: the amended theorem applied at the non-matching input
`"xyz"`. -/
theorem C1_witness : to_timedelta (.str "xyz") = .ok (.str "xyz") :=
  C1_main.1 "xyz" rfl

/-! ### Claim C2 — integer converter failure policy -/

/-- C2 counterexample: `None` is not integral, is not a callable and
cannot be parsed as an integer (`int(None)` raises `TypeError`), yet
`to_integer` returns `None` instead of raising. -/
theorem C2_counterexample :
    Value.none.isInstInt = false ∧ Value.none.isCallable = false ∧
    pyIntOf .none = .error .typeError ∧
    to_integer .none = .ok .none :=
  ⟨rfl, rfl, rfl, rfl⟩

/-- C2 (amended): for every input OTHER THAN `None` that is not already
integral, is not a zero-argument value-producer, and cannot be parsed
as an integer, `to_integer` raises `ValueError`; the input `None` is
the one lenient exception, mapped to `None`. -/
theorem C2_main (v : Value) (h0 : v.isNone = false)
    (h1 : v.isInstInt = false) (h2 : v.isCallable = false) (e : PyErr)
    (h3 : pyIntOf v = .error e) : to_integer v = .error .valueError := by
  cases v <;> simp_all [to_integer, Value.isNone, Value.isInstInt,
    Value.isCallable]

/-- C2 witness: the amended theorem applied at the unparsable text
`"abc"`. -/
theorem C2_witness : to_integer (.str "abc") = .error .valueError :=
  C2_main (.str "abc") rfl rfl rfl .valueError rfl

/-! ### Claim C3 — boolean vocabulary -/

/-- C3: any casing of the truthy vocabulary maps to `True`, any casing
of the falsy vocabulary maps to `False`, and any other text raises a
`ValueError`; in particular `"YES"`, `"0"` and `"maybe"`. -/
theorem C3_main (s : String) :
    (pyLower s = "y" ∨ pyLower s = "yes" ∨ pyLower s = "t" ∨
        pyLower s = "true" ∨ pyLower s = "on" ∨ pyLower s = "1" →
      to_boolean (.str s) = .ok (.bool true)) ∧
    (pyLower s = "n" ∨ pyLower s = "no" ∨ pyLower s = "f" ∨
        pyLower s = "false" ∨ pyLower s = "off" ∨ pyLower s = "0" →
      to_boolean (.str s) = .ok (.bool false)) ∧
    (¬ (pyLower s = "y" ∨ pyLower s = "yes" ∨ pyLower s = "t" ∨
        pyLower s = "true" ∨ pyLower s = "on" ∨ pyLower s = "1") →
      ¬ (pyLower s = "n" ∨ pyLower s = "no" ∨ pyLower s = "f" ∨
        pyLower s = "false" ∨ pyLower s = "off" ∨ pyLower s = "0") →
      to_boolean (.str s) = .error .valueError) ∧
    to_boolean (.str "YES") = .ok (.bool true) ∧
    to_boolean (.str "0") = .ok (.bool false) ∧
    to_boolean (.str "maybe") = .error .valueError := by
  refine ⟨?_, ?_, ?_, rfl, rfl, rfl⟩
  · intro h
    simp only [to_boolean, strtobool]
    rw [if_pos h]
    rfl
  · intro h
    rcases h with h | h | h | h | h | h <;> simp only [to_boolean, strtobool, h] <;> rfl
  · intro h1 h2
    simp only [to_boolean, strtobool]
    rw [if_neg h1, if_neg h2]
    rfl

/-- C3 witness: the theorem applied at `"TRUE"`, `"oFF"` and `"zzz"`. -/
theorem C3_witness :
    to_boolean (.str "TRUE") = .ok (.bool true) ∧
    to_boolean (.str "oFF") = .ok (.bool false) ∧
    to_boolean (.str "zzz") = .error .valueError :=
  ⟨(C3_main "TRUE").1 (by decide),
   (C3_main "oFF").2.1 (by decide),
   (C3_main "zzz").2.2.1 (by decide) (by decide)⟩

/-! ### Claim C4 — Optional passthrough -/

/-- C4: for an `Optional(inner)` descriptor, coercing `None` returns
`None` unconditionally for every inner descriptor without consulting
it, and coercing any present value recurses into the inner descriptor;
in particular `coerce(Optional(Integer), None) = None` and
`coerce(Optional(Integer), "42") = 42`. -/
theorem C4_main :
    (∀ a : Ty, parse_type (.tOptional a) .none = .ok .none) ∧
    (∀ (a : Ty) (v : Value), v.isNone = false →
      parse_type (.tOptional a) v = parse_type a v) ∧
    parse_type (.tOptional .tInt) .none = .ok .none ∧
    parse_type (.tOptional .tInt) (.str "42") = .ok (.int 42) := by
  refine ⟨fun a => by simp [parse_type], fun a v h => ?_, by simp [parse_type], ?_⟩
  · cases v <;> simp_all [parse_type, Value.isNone]
  · simp [parse_type, encodersTy, to_integer, pyIntOf]
    rfl

/-- C4 witness: the recursion clause of the theorem applied at the
present value `"42"` with inner descriptor `Integer`. -/
theorem C4_witness :
    parse_type (.tOptional .tInt) (.str "42") = parse_type .tInt (.str "42") :=
  C4_main.2.1 .tInt (.str "42") rfl

/-! ### Claim C5 — sequence auto-wrap -/

/-- C5: for a `SequenceOf(element)` descriptor, a raw value that is not
already an ordered collection is wrapped as a single-element sequence
and coercion proceeds exactly as it would on that one-element sequence;
in particular `coerce(List[Integer], "42") = [42]` without an error. -/
theorem C5_main :
    (∀ (a : Ty) (v : Value), v.isSeq = false →
      parse_type (.tList a) v = parse_type (.tList a) (.list [v])) ∧
    parse_type (.tList .tInt) (.str "42") = .ok (.list [.int 42]) := by
  constructor
  · intro a v h
    cases v <;> simp_all [parse_type, Value.isSeq]
  · simp [parse_type, Value.isSeq, Ty.isTyping, isIterable, seqItems,
      parseListM, encodersTy, to_integer, pyIntOf]
    rfl

/-- C5 witness: the wrap clause applied at the scalar `"42"`. -/
theorem C5_witness :
    parse_type (.tList .tInt) (.str "42") =
      parse_type (.tList .tInt) (.list [.str "42"]) :=
  C5_main.1 .tInt (.str "42") rfl

/-! ### Claim C6 — mapping coercion -/

/-- C6 counterexample: the claim says a non-mapping raw value is
returned unmodified by a `MappingOf` descriptor; in fact the `typing`
branch of `parse_type` falls through without a `return` and the
function returns `None`, dropping the value `7`. -/
theorem C6_counterexample :
    parse_type (.tDict .tStr .tInt) (.int 7) = .ok .none ∧
    Value.none ≠ .int 7 := by
  refine ⟨by simp [parse_type], fun h => ?_⟩
  exact Value.noConfusion h

/-- C6 (amended): for a `MappingOf(value)` descriptor, a mapping raw
value has every value coerced with keys preserved unchanged (the first
failure propagating), while a NON-mapping raw value is dropped and
replaced by `None` rather than returned unmodified. -/
theorem C6_main :
    (∀ (kt vt : Ty) (kvs : List (String × Value)),
      parse_type (.tDict kt vt) (.dict kvs) =
        (parsePairsM (fun x => parse_type vt x) kvs).map Value.dict) ∧
    (∀ (f : Value → PyRes) (kvs rs : List (String × Value)),
      parsePairsM f kvs = .ok rs → rs.map Prod.fst = kvs.map Prod.fst) ∧
    (∀ (kt vt : Ty) (v : Value), v.isDict = false →
      parse_type (.tDict kt vt) v = .ok .none) := by
  refine ⟨fun kt vt kvs => by simp [parse_type], fun f kvs => ?_, fun kt vt v h => ?_⟩
  · induction kvs with
    | nil => intro rs h; simp only [parsePairsM] at h; cases h; rfl
    | cons p ps ih =>
      intro rs h
      obtain ⟨k, x⟩ := p
      simp only [parsePairsM] at h
      rcases hfx : f x with e | r
      · rw [hfx] at h; exact absurd h (by simp)
      · rw [hfx] at h
        rcases hps : parsePairsM f ps with e | rs0
        · rw [hps] at h; exact absurd h (by simp)
        · rw [hps] at h
          cases h
          simpa using ih rs0 hps
  · cases v <;> simp_all [parse_type, Value.isDict]

/-- C6 witness: the mapping clause applied at a concrete two-entry
mapping, and the non-mapping clause applied at the scalar `5`. -/
theorem C6_witness :
    parse_type (.tDict .tStr .tInt) (.dict [("a", .str "1"), ("b", .int 2)]) =
      (parsePairsM (fun x => parse_type .tInt x)
        [("a", .str "1"), ("b", .int 2)]).map Value.dict ∧
    parse_type (.tDict .tStr .tInt) (.str "zzz") = .ok .none :=
  ⟨C6_main.1 .tStr .tInt [("a", .str "1"), ("b", .int 2)],
   C6_main.2.2 .tStr .tInt (.str "zzz") rfl⟩

/-! ### Claim C7 — date converter cascade -/

/-- C7: `to_date` passes through values already of date type, decodes
byte sequences to text, raises only when the fast fixed-format parse,
the ISO parse and the flexible fallback all fail, and parses
`"2024-01-05"` (text or bytes) to the date 2024-01-05. -/
theorem C7_main :
    (∀ d : DateR, to_date (.date d) = .ok (.date d)) ∧
    (∀ s : String, (∃ e, to_date (.str s) = .error e) →
      cisoParse s = Option.none ∧ fromisoParse s = Option.none ∧
        pendulumParse s = Option.none) ∧
    (∀ s : String, (∃ e, to_date (.bytes s) = .error e) →
      cisoParse s = Option.none ∧ fromisoParse s = Option.none ∧
        pendulumParse s = Option.none) ∧
    to_date (.str "2024-01-05") = .ok (.date ⟨2024, 1, 5⟩) ∧
    to_date (.bytes "2024-01-05") = .ok (.date ⟨2024, 1, 5⟩) := by
  refine ⟨fun d => rfl, fun s he => ?_, fun s he => ?_, rfl, rfl⟩
  · obtain ⟨e, he⟩ := he
    simp only [to_date] at he
    rcases h1 : cisoParse s with _ | p
    · rw [h1] at he
      simp only [dateTail] at he
      rcases h2 : fromisoParse s with _ | p2
      · rw [h2] at he
        rcases h3 : pendulumParse s with _ | p3
        · exact ⟨rfl, rfl, rfl⟩
        · obtain ⟨d3, t3⟩ := p3
          rw [h3] at he
          exact absurd he (by simp)
      · obtain ⟨d2, t2⟩ := p2
        rw [h2] at he
        exact absurd he (by simp)
    · obtain ⟨d1, t1⟩ := p
      rw [h1] at he
      exact absurd he (by simp)
  · obtain ⟨e, he⟩ := he
    simp only [to_date] at he
    simp only [dateTail] at he
    rcases h2 : fromisoParse s with _ | p2
    · rw [h2] at he
      rcases h3 : pendulumParse s with _ | p3
      · exact ⟨h2, rfl, rfl⟩
      · obtain ⟨d3, t3⟩ := p3
        rw [h3] at he
        exact absurd he (by simp)
    · obtain ⟨d2, t2⟩ := p2
      rw [h2] at he
      exact absurd he (by simp)

/-- C7 witness: the only-if clause applied at the unparsable text
`"x"`, whose conversion raises. -/
theorem C7_witness :
    cisoParse "x" = Option.none ∧ fromisoParse "x" = Option.none ∧
      pendulumParse "x" = Option.none :=
  C7_main.2.1 "x" ⟨.valueError, rfl⟩

/-! ### Claim C8 — float/decimal leniency and the InvalidOperation leak -/

/-- C8: evaluation of the code at the failing input: `to_float` is
lenient as claimed, but `Decimal("abc")` raises
`decimal.InvalidOperation`, which is not a subclass of `ValueError` or
`TypeError`, so the `except (TypeError, ValueError)` clause of
`to_decimal` misses it and the converter raises instead of returning
`None`. -/
theorem C8_main :
    to_float (.str "abc") = .ok .none ∧
    pyDecimalOf (.str "abc") = .error .invalidOperation ∧
    to_decimal (.str "abc") = .error .invalidOperation :=
  ⟨rfl, rfl, rfl⟩

/-! ### Claim C9 — idempotence of primitive coercion -/

/-- Applying `to_uuid_v2` to a fallback result is the identity: the
fallback is either a parsed `UUID` (passed through) or `None` (whose
textual form `"None"` is no UUID, giving `None` again). -/
theorem to_uuid_v2_fallback_ok (v : Value) :
    to_uuid_v2 (uuidFallback v) = .ok (uuidFallback v) := by
  unfold uuidFallback
  cases hp : parseUUIDstr (pyStr v) with
  | none => rfl
  | some n => rfl

theorem to_uuid_v2_idem (v r : Value) (h : to_uuid_v2 v = .ok r)
    (hc : v.isCallable = false) : to_uuid_v2 r = .ok r := by
  have hshape : r = uuidFallback v ∨ ∃ n, r = Value.uuid n := by
    cases v with
    | uuid n => exact Or.inr ⟨n, (Except.ok.inj h).symm⟩
    | producer r0 => simp [Value.isCallable] at hc
    | _ => exact Or.inl (Except.ok.inj h).symm
  rcases hshape with h1 | ⟨n, h1⟩
  · subst h1
    exact to_uuid_v2_fallback_ok v
  · subst h1
    rfl

theorem to_boolean_idem (v r : Value) (h : to_boolean v = .ok r)
    (hc : v.isCallable = false) : to_boolean r = .ok r := by
  cases v with
  | str s =>
    simp only [to_boolean] at h
    rcases hs : strtobool s with e | b <;> rw [hs] at h
    · exact absurd h (by simp [Except.map])
    · have h1 := (Except.ok.inj h).symm
      subst h1
      rfl
  | bytes s =>
    simp only [to_boolean] at h
    rcases hs : strtobool s with e | b <;> rw [hs] at h
    · exact absurd h (by simp [Except.map])
    · have h1 := (Except.ok.inj h).symm
      subst h1
      rfl
  | producer r0 => simp [Value.isCallable] at hc
  | _ =>
    have h1 := (Except.ok.inj h).symm
    subst h1
    rfl

theorem to_integer_idem (v r : Value) (h : to_integer v = .ok r)
    (hc : v.isCallable = false) : to_integer r = .ok r := by
  cases v with
  | producer r0 => simp [Value.isCallable] at hc
  | none => cases h; rfl
  | int n => cases h; rfl
  | bool b => cases h; rfl
  | _ =>
    simp only [to_integer] at h
    rcases hp : pyIntOf _ with e | n <;> rw [hp] at h
    · exact absurd h (by simp)
    · cases h; rfl

theorem to_float_idem (v r : Value) (h : to_float v = .ok r)
    (hc : v.isCallable = false) : to_float r = .ok r := by
  cases v with
  | producer r0 => simp [Value.isCallable] at hc
  | float q => cases h; rfl
  | decimal q => cases h; rfl
  | missing => cases h; rfl
  | _ =>
    simp only [to_float] at h
    rcases hp : pyFloatOf _ with e | q <;> rw [hp] at h <;> cases h <;> rfl

theorem to_decimal_idem (v r : Value) (h : to_decimal v = .ok r)
    (hc : v.isCallable = false) : to_decimal r = .ok r := by
  cases v with
  | producer r0 => simp [Value.isCallable] at hc
  | none => cases h; rfl
  | decimal q => cases h; rfl
  | _ =>
    simp only [to_decimal] at h
    rcases hp : pyDecimalOf _ with e | q <;> rw [hp] at h
    · cases e <;> simp at h <;> (cases h; rfl)
    · cases h; rfl

theorem to_date_idem (v r : Value) (h : to_date v = .ok r)
    (hc : v.isCallable = false) : to_date r = .ok r := by
  cases v with
  | none => cases h; rfl
  | date d => cases h; rfl
  | datetime d t => cases h; rfl
  | str s =>
    simp only [to_date] at h
    rcases h1 : cisoParse s with _ | p <;> rw [h1] at h
    · simp only [dateTail] at h
      rcases h2 : fromisoParse s with _ | p2 <;> rw [h2] at h
      · rcases h3 : pendulumParse s with _ | p3 <;> rw [h3] at h
        · exact absurd h (by simp)
        · obtain ⟨d3, t3⟩ := p3
          cases h; rfl
      · obtain ⟨d2, t2⟩ := p2
        cases h; rfl
    · obtain ⟨d1, t1⟩ := p
      cases h; rfl
  | bytes s =>
    simp only [to_date, dateTail] at h
    rcases h2 : fromisoParse s with _ | p2 <;> rw [h2] at h
    · rcases h3 : pendulumParse s with _ | p3 <;> rw [h3] at h
      · exact absurd h (by simp)
      · obtain ⟨d3, t3⟩ := p3
        cases h; rfl
    · obtain ⟨d2, t2⟩ := p2
      cases h; rfl
  | _ => exact absurd h (by simp [to_date])

theorem to_datetime_idem (v r : Value) (h : to_datetime v = .ok r)
    (hc : v.isCallable = false) : to_datetime r = .ok r := by
  cases v with
  | none => cases h; rfl
  | datetime d t => cases h; rfl
  | str s =>
    simp only [to_datetime] at h
    rcases h1 : cisoParse s with _ | p <;> rw [h1] at h
    · simp only [datetimeTail] at h
      rcases h2 : fromisoParse s with _ | p2 <;> rw [h2] at h
      · rcases h3 : pendulumParse s with _ | p3 <;> rw [h3] at h
        · exact absurd h (by simp)
        · obtain ⟨d3, t3⟩ := p3
          cases h; rfl
      · obtain ⟨d2, t2⟩ := p2
        cases h; rfl
    · obtain ⟨d1, t1⟩ := p
      cases h; rfl
  | bytes s =>
    simp only [to_datetime, datetimeTail] at h
    rcases h2 : fromisoParse s with _ | p2 <;> rw [h2] at h
    · rcases h3 : pendulumParse s with _ | p3 <;> rw [h3] at h
      · exact absurd h (by simp)
      · obtain ⟨d3, t3⟩ := p3
        cases h; rfl
    · obtain ⟨d2, t2⟩ := p2
      cases h; rfl
  | _ => exact absurd h (by simp [to_datetime])

theorem to_time_idem (v r : Value) (h : to_time v = .ok r)
    (hc : v.isCallable = false) : to_time r = .ok r := by
  cases v with
  | none => cases h; rfl
  | time t => cases h; rfl
  | producer r0 => simp [Value.isCallable] at hc
  | str s =>
    simp only [to_time] at h
    split at h
    · have h1 := (Except.ok.inj h).symm
      subst h1
      rfl
    · split at h
      · have h1 := (Except.ok.inj h).symm
        subst h1
        simp_all [to_time]
      · split at h
        · have h1 := (Except.ok.inj h).symm
          subst h1
          rfl
        · exact absurd h (by simp)
  | _ => exact absurd h (by simp [to_time])

/-- C9 counterexample: primitive coercion is NOT idempotent for every
primitive kind.  Duration: coercing `"0:0:1"` succeeds with a
`timedelta`, but coercing that result again raises `TypeError` inside
`re.match`.  Object: coercing the JSON text made of a quote, `abc` and
a quote succeeds with the text `abc`, but coercing that result again
yields `None`.  And for a value-producer input under the Boolean kind,
the first coercion returns the produced value `"maybe"` as-is, whose
second coercion raises. -/
theorem C9_counterexample :
    (registry .timedeltaK (.str "0:0:1") = .ok (.timedelta 1000000) ∧
      registry .timedeltaK (.timedelta 1000000) = .error .typeError) ∧
    (registry .objectK (.str "\"abc\"") = .ok (.str "abc") ∧
      registry .objectK (.str "abc") = .ok .none) ∧
    (registry .boolK (.producer (some (.str "maybe"))) = .ok (.str "maybe") ∧
      registry .boolK (.str "maybe") = .error .valueError) :=
  ⟨⟨rfl, rfl⟩, ⟨rfl, rfl⟩, ⟨rfl, rfl⟩⟩

/-- C9 (amended): primitive coercion through the encoder registry is
idempotent for every primitive kind EXCEPT Duration and Object, on
every input that is not a zero-argument value-producer: whenever
coercion succeeds, coercing its result returns that result
unchanged. -/
theorem C9_main (k : PKind) (v r : Value) (hk1 : k ≠ .timedeltaK)
    (hk2 : k ≠ .objectK) (hc : v.isCallable = false)
    (h : registry k v = .ok r) : registry k r = .ok r := by
  cases k with
  | uuidK => exact to_uuid_v2_idem v r h hc
  | boolK => exact to_boolean_idem v r h hc
  | intK => exact to_integer_idem v r h hc
  | floatK => exact to_float_idem v r h hc
  | dateK => exact to_date_idem v r h hc
  | datetimeK => exact to_datetime_idem v r h hc
  | timeK => exact to_time_idem v r h hc
  | decimalK => exact to_decimal_idem v r h hc
  | timedeltaK => exact absurd rfl hk1
  | objectK => exact absurd rfl hk2

/-- C9 witness: the amended theorem applied to the Integer kind at the
text `"42"`, whose coercion succeeds with `42`. -/
theorem C9_witness : registry .intK (.int 42) = .ok (.int 42) :=
  C9_main .intK (.str "42") (.int 42) (by decide) (by decide) rfl rfl

/-! ### Claim C10 — identifier converter never raises -/

/-- C10 counterexample: the claim says `to_uuid` returns the input
unchanged when it is a UUID and otherwise a parsed UUID or `None`; but
the newer variant invokes a callable input and returns whatever the
call produces, here the integer `42`, which is neither a UUID nor
`None` nor the input itself. -/
theorem C10_counterexample :
    to_uuid_v2 (.producer (some (.int 42))) = .ok (.int 42) ∧
    (Value.int 42).isUuid = false ∧ (Value.int 42).isNone = false ∧
    (Value.producer (some (.int 42))).isUuid = false ∧
    Value.producer (some (.int 42)) ≠ .int 42 := by
  refine ⟨rfl, rfl, rfl, rfl, fun h => Value.noConfusion h⟩

/-- C10 (amended): neither `to_uuid` variant ever raises: a `UUID`
input passes through both variants unchanged; the newer variant
additionally returns the result of invoking a callable input as-is
when the call succeeds; every other input yields the parsed UUID of
its textual form, or `None` when parsing fails. -/
theorem C10_main (v : Value) :
    (∃ r, to_uuid_v1 v = .ok r) ∧ (∃ r, to_uuid_v2 v = .ok r) ∧
    (v.isUuid = true → to_uuid_v1 v = .ok v ∧ to_uuid_v2 v = .ok v) ∧
    (v.isUuid = false → v.isCallable = false →
      to_uuid_v1 v = .ok (uuidFallback v) ∧
        to_uuid_v2 v = .ok (uuidFallback v)) := by
  cases v with
  | uuid n =>
    exact ⟨⟨.uuid n, rfl⟩, ⟨.uuid n, rfl⟩, fun _ => ⟨rfl, rfl⟩,
      fun h _ => by simp [Value.isUuid] at h⟩
  | producer r0 =>
    refine ⟨⟨uuidFallback (.producer r0), rfl⟩, ?_,
      fun h => by simp [Value.isUuid] at h,
      fun _ h => by simp [Value.isCallable] at h⟩
    cases r0 with
    | none => exact ⟨uuidFallback (.producer Option.none), rfl⟩
    | some w => exact ⟨w, rfl⟩
  | _ =>
    exact ⟨⟨uuidFallback _, rfl⟩, ⟨uuidFallback _, rfl⟩,
      fun h => by simp [Value.isUuid] at h, fun _ _ => ⟨rfl, rfl⟩⟩

/-- C10 witness: the theorem applied at a concrete UUID value and at
the unparsable text `"zzz"`. -/
theorem C10_witness :
    to_uuid_v2 (.uuid 5) = .ok (.uuid 5) ∧
    to_uuid_v2 (.str "zzz") = .ok (uuidFallback (.str "zzz")) :=
  ⟨((C10_main (.uuid 5)).2.2.1 rfl).2,
   ((C10_main (.str "zzz")).2.2.2 rfl rfl).2⟩

end DataModel
